import Mathlib

set_option autoImplicit false

/-!
Shallow embedding of the ephemeral one-time password-share store of
DrFlach/password_manager (Go backend: models.go, handlers.go, main.go).

Modelling conventions:
- Go `time.Time` values are nanosecond timestamps, embedded as `Int`
  (realistic wall-clock values are far inside the representable range of
  Go `time.Time`, so plain integer addition of a duration is exact).
- Go `time.Duration` is an `int64` nanosecond count; `int64` arithmetic in
  Go wraps on overflow, which is modelled explicitly by `wrap64`.
- The Go map `map[string]*ShareData` is embedded by value as an
  association list with pairwise-distinct keys; map assignment replaces
  any existing binding for the key.
- Each store method of models.go (`Get`, `Add`, `MarkViewed`, `Delete`,
  `CleanupExpired`) takes the store lock once, so each is one atomic step;
  the handler cores of handlers.go compose these steps and perform their
  branch tests between them, outside any lock, exactly as the Go code does.
- The random token produced by `generateSecureToken` is passed in as a
  parameter (the embedding is deterministic in the generated token).
-/

namespace PasswordShare

/-- Signed 64-bit wraparound, modelling overflow of Go int64 arithmetic. -/
def wrap64 (x : Int) : Int := (x + 2 ^ 63) % 2 ^ 64 - 2 ^ 63

/-- Go `time.Hour` as an int64 nanosecond count. -/
def hourNs : Int := 3600000000000

/-- Go `time.Duration(h) * time.Hour` (handlers.go line 64): an int64
multiplication, so the product wraps when it exceeds the int64 range. -/
def goHoursToDuration (h : Int) : Int := wrap64 (h * hourNs)

/-- models.go `ShareData`: one pending share, with expiry and view tracking. -/
structure ShareData where
  encryptedPassword : String
  serviceName : String
  username : String
  createdAt : Int
  expiresAt : Int
  viewed : Bool
  viewedAt : Option Int
  deriving DecidableEq

/-- models.go `ShareRequest`: the decoded body of POST /api/share.
`expirationHours` is 0 when the field is absent from the JSON body. -/
structure ShareRequest where
  encryptedPassword : String
  serviceName : String
  username : String
  expirationHours : Int
  deriving DecidableEq

/-- models.go `ShareRetrieveResponse`: the body returned when retrieving. -/
structure ShareRetrieveResponse where
  encryptedPassword : String
  serviceName : String
  username : String
  createdAt : Int
  viewedAt : Option Int
  deriving DecidableEq

/-- models.go `ShareStore.shares`: the registry, a Go map from token to
record, embedded by value as an association list. -/
abbrev ShareStore : Type := List (String × ShareData)

namespace ShareStore

/-- models.go `Get` (lines 64-69): map lookup, under a read lock. -/
def Get (token : String) : ShareStore → Option ShareData
  | [] => none
  | (k, d) :: rest => if k = token then some d else Get token rest

/-- models.go `Delete` (lines 83-87): Go `delete(s.shares, token)`. -/
def Delete (token : String) : ShareStore → ShareStore
  | [] => []
  | (k, d) :: rest =>
      if k = token then Delete token rest else (k, d) :: Delete token rest

/-- models.go `Add` (lines 57-61): Go map assignment
`s.shares[token] = data`, which replaces any existing binding for the
token; no uniqueness check is performed. -/
def Add (token : String) (data : ShareData) (s : ShareStore) : ShareStore :=
  Delete token s ++ [(token, data)]

/-- models.go `MarkViewed` (lines 72-80): if the token is bound, set
`Viewed` and `ViewedAt` on its record; otherwise do nothing. -/
def MarkViewed (now : Int) (token : String) : ShareStore → ShareStore
  | [] => []
  | (k, d) :: rest =>
      if k = token then
        (k, { d with viewed := true, viewedAt := some now }) :: MarkViewed now token rest
      else
        (k, d) :: MarkViewed now token rest

/-- models.go `CleanupExpired` (lines 90-105): one pass over the map that
deletes every record with `now.After(data.ExpiresAt)`, counting deletions.
Returns (count, remaining store). -/
def CleanupExpired (now : Int) : ShareStore → Nat × ShareStore
  | [] => (0, [])
  | (k, d) :: rest =>
      let r := CleanupExpired now rest
      if now > d.expiresAt then (r.1 + 1, r.2) else (r.1, (k, d) :: r.2)

end ShareStore

/-- Outcome of GET /api/share/:token (handlers.go `GetShareHandler`).
`notFound` is the 404 branch, `expired` the 410 expiry branch (no body
fields beyond an error message), `alreadyViewed` the 410 already-viewed
branch carrying the metadata details object, `success` the 200 branch
carrying the payload. -/
inductive RedeemResult where
  | notFound
  | expired
  | alreadyViewed (details : ShareRetrieveResponse)
  | success (resp : ShareRetrieveResponse)
  deriving DecidableEq

/-- Decision reached by the first part of handlers.go `GetShareHandler`
(lines 104-134): the `store.Get` call (a read-locked step) followed by the
expiry test and the viewed test, both evaluated on the returned record
outside any lock. `consume` records the snapshot that the handler goes on
to use for the response. -/
inductive RedeemDecision where
  | notFound
  | expired
  | alreadyViewed (details : ShareRetrieveResponse)
  | consume (snapshot : ShareData)
  deriving DecidableEq

/-- First part of `GetShareHandler`: `store.Get`, then
`time.Now().After(shareData.ExpiresAt)` (line 112), then
`shareData.Viewed` (line 119). None of this holds the write lock. -/
def getSharePhase1 (now : Int) (token : String) (s : ShareStore) : RedeemDecision :=
  match ShareStore.Get token s with
  | none => .notFound
  | some d =>
      if now > d.expiresAt then .expired
      else if d.viewed then
        .alreadyViewed { encryptedPassword := ""
                         serviceName := d.serviceName
                         username := d.username
                         createdAt := d.createdAt
                         viewedAt := d.viewedAt }
      else .consume d

/-- Second part of `GetShareHandler`: the store mutations that follow the
decision, each a separately locked store call, plus the response built
from the snapshot. On `consume` (lines 136-152) the handler calls
`store.MarkViewed(token)` and then `store.Delete(token)`; the response is
built from the record pointer after `MarkViewed` set `ViewedAt`, hence
`viewedAt := some now`. On `expired` (lines 112-116) it calls
`store.Delete(token)`. -/
def getSharePhase2 (now : Int) (token : String) (dec : RedeemDecision)
    (s : ShareStore) : RedeemResult × ShareStore :=
  match dec with
  | .notFound => (.notFound, s)
  | .expired => (.expired, ShareStore.Delete token s)
  | .alreadyViewed r => (.alreadyViewed r, s)
  | .consume d =>
      let s1 := ShareStore.MarkViewed now token s
      let s2 := ShareStore.Delete token s1
      (.success { encryptedPassword := d.encryptedPassword
                  serviceName := d.serviceName
                  username := d.username
                  createdAt := d.createdAt
                  viewedAt := some now }, s2)

/-- handlers.go `GetShareHandler` (lines 104-156), run without
interference: phase 1 and then phase 2 on the same store. -/
def getShare (now : Int) (token : String) (s : ShareStore) :
    RedeemResult × ShareStore :=
  getSharePhase2 now token (getSharePhase1 now token s) s

/-- Two `GetShareHandler` calls A and B racing on the same token, under
the schedule: A runs phase 1, B runs phase 1 (the `store.Get` steps take
only the shared read lock of the RWMutex, and the expiry and viewed tests
take no lock at all, so both calls can complete phase 1 before either
takes the write lock), then A runs phase 2, then B runs phase 2. Every
individual step is exactly the store operation the handler performs.
Returns the two responses and the final store. -/
def racyGetShare (now : Int) (token : String) (s : ShareStore) :
    (RedeemResult × RedeemResult) × ShareStore :=
  let decA := getSharePhase1 now token s
  let decB := getSharePhase1 now token s
  let rA := getSharePhase2 now token decA s
  let rB := getSharePhase2 now token decB rA.2
  ((rA.1, rB.1), rB.2)

/-- handlers.go `DeleteShareHandler` (lines 160-193): `store.Get` to test
existence (404 when absent), then `store.Delete`. Returns whether the
record existed, and the resulting store. -/
def deleteShare (token : String) (s : ShareStore) : Bool × ShareStore :=
  match ShareStore.Get token s with
  | none => (false, s)
  | some _ => (true, ShareStore.Delete token s)

/-- handlers.go `CreateShareHandler` (lines 24-84): validate the required
fields (lines 38-41), default a non-positive `expiration_hours` to 24
(lines 43-47), build the record with
`ExpiresAt = now.Add(time.Duration(expirationHours) * time.Hour)`
(lines 57-66), and `store.Add` it under the generated token (line 69).
The generated token is a parameter. Returns the stored record and the new
store, or `none` when validation fails. -/
def createShare (req : ShareRequest) (token : String) (now : Int)
    (s : ShareStore) : Option (ShareData × ShareStore) :=
  if req.encryptedPassword = "" ∨ req.serviceName = "" ∨ req.username = "" then
    none
  else
    let expirationHours := if req.expirationHours ≤ 0 then 24 else req.expirationHours
    let d : ShareData :=
      { encryptedPassword := req.encryptedPassword
        serviceName := req.serviceName
        username := req.username
        createdAt := now
        expiresAt := now + goHoursToDuration expirationHours
        viewed := false
        viewedAt := none }
    some (d, ShareStore.Add token d s)

/-- A concrete active, unexpired record, used as a test input. -/
def sampleActive : ShareData :=
  { encryptedPassword := "s3cret", serviceName := "Gmail", username := "a@b.com",
    createdAt := 0, expiresAt := 1000, viewed := false, viewedAt := none }

/-- A concrete unexpired record already marked viewed, used as a test input. -/
def sampleViewed : ShareData :=
  { encryptedPassword := "s3cret", serviceName := "Gmail", username := "a@b.com",
    createdAt := 0, expiresAt := 1000, viewed := true, viewedAt := some 3 }

namespace ShareStore

/-- After `Delete token`, the token is no longer bound. -/
theorem Get_Delete_self (token : String) :
    ∀ s : ShareStore, Get token (Delete token s) = none := by
  intro s
  induction s with
  | nil => rfl
  | cons p rest ih =>
    obtain ⟨k, d⟩ := p
    by_cases h : k = token
    · simpa [Delete, h] using ih
    · simp [Delete, Get, h, ih]

/-- Lookup of the token in a delete-then-append store finds the appended
record. -/
theorem Get_Delete_append (token : String) (d : ShareData) :
    ∀ s : ShareStore, Get token (Delete token s ++ [(token, d)]) = some d := by
  intro s
  induction s with
  | nil => simp [Delete, Get]
  | cons p rest ih =>
    obtain ⟨k, e⟩ := p
    by_cases h : k = token
    · simpa [Delete, h] using ih
    · simp [Delete, Get, h, ih]

/-- After `Add token d`, the token is bound to `d` (map assignment). -/
theorem Get_Add_self (token : String) (d : ShareData) (s : ShareStore) :
    Get token (Add token d s) = some d :=
  Get_Delete_append token d s

/-- `Delete` only removes entries. -/
theorem Delete_sublist (token : String) :
    ∀ s : ShareStore, (Delete token s).Sublist s := by
  intro s
  induction s with
  | nil => simp [Delete]
  | cons p rest ih =>
    obtain ⟨k, e⟩ := p
    by_cases h : k = token
    · simp only [Delete, if_pos h]
      exact ih.cons _
    · simp only [Delete, if_neg h]
      exact ih.cons₂ _

/-- After `Delete token`, the token is not among the keys. -/
theorem token_not_mem_keys_Delete (token : String) :
    ∀ s : ShareStore, token ∉ (Delete token s).map Prod.fst := by
  intro s
  induction s with
  | nil => simp [Delete]
  | cons p rest ih =>
    obtain ⟨k, e⟩ := p
    by_cases h : k = token
    · simpa [Delete, h] using ih
    · simp [Delete, h, ih]
      exact fun hk => absurd hk.symm h

/-- `Add` keeps the keys of the store pairwise distinct. -/
theorem Add_keys_nodup (token : String) (d : ShareData) (s : ShareStore)
    (h : (s.map Prod.fst).Nodup) :
    ((Add token d s).map Prod.fst).Nodup := by
  unfold Add
  rw [List.map_append, List.nodup_append]
  refine ⟨((Delete_sublist token s).map Prod.fst).nodup h, by simp, ?_⟩
  intro a ha hb
  simp at hb
  exact token_not_mem_keys_Delete token s (hb ▸ ha)

end ShareStore

/-- `wrap64` is the identity on values inside the int64 range. -/
theorem wrap64_eq_self (x : Int) (h1 : -(2 ^ 63) ≤ x) (h2 : x < 2 ^ 63) :
    wrap64 x = x := by
  unfold wrap64
  have h0 : (0 : Int) ≤ x + 2 ^ 63 := by linarith
  have hlt : x + 2 ^ 63 < 2 ^ 64 := by
    have he : (2 ^ 63 : Int) + 2 ^ 63 = 2 ^ 64 := by norm_num
    linarith
  rw [Int.emod_eq_of_lt h0 hlt]
  ring

/-- Inversion of a successful `createShare`: the stored record is exactly
the literal built by the handler, and the new store is `Add` of it. -/
theorem createShare_some_inv (req : ShareRequest) (token : String) (now : Int)
    (s : ShareStore) (d : ShareData) (s1 : ShareStore)
    (hc : createShare req token now s = some (d, s1)) :
    d = { encryptedPassword := req.encryptedPassword
          serviceName := req.serviceName
          username := req.username
          createdAt := now
          expiresAt := now + goHoursToDuration
            (if req.expirationHours ≤ 0 then 24 else req.expirationHours)
          viewed := false
          viewedAt := none } ∧
    s1 = ShareStore.Add token d s := by
  unfold createShare at hc
  split at hc
  · exact absurd hc (by simp)
  · simp only [Option.some.injEq, Prod.mk.injEq] at hc
    obtain ⟨hd, hs⟩ := hc
    subst hd
    exact ⟨rfl, hs.symm⟩

/-- An uninterfered redeem of a bound, unexpired, unviewed record succeeds
and performs `MarkViewed` then `Delete`. -/
theorem getShare_of_active (now : Int) (token : String) (s : ShareStore)
    (d : ShareData) (hg : ShareStore.Get token s = some d)
    (hexp : ¬ now > d.expiresAt) (hv : d.viewed = false) :
    getShare now token s =
      (RedeemResult.success
        { encryptedPassword := d.encryptedPassword
          serviceName := d.serviceName
          username := d.username
          createdAt := d.createdAt
          viewedAt := some now },
       ShareStore.Delete token (ShareStore.MarkViewed now token s)) := by
  unfold getShare getSharePhase1 getSharePhase2
  rw [hg]
  simp [hexp, hv]

/-- An uninterfered redeem of a bound, unexpired record already marked
viewed answers the already-viewed error and leaves the store unchanged. -/
theorem getShare_of_viewed (now : Int) (token : String) (s : ShareStore)
    (d : ShareData) (hg : ShareStore.Get token s = some d)
    (hexp : ¬ now > d.expiresAt) (hv : d.viewed = true) :
    getShare now token s =
      (RedeemResult.alreadyViewed
        { encryptedPassword := ""
          serviceName := d.serviceName
          username := d.username
          createdAt := d.createdAt
          viewedAt := d.viewedAt }, s) := by
  unfold getShare getSharePhase1 getSharePhase2
  rw [hg]
  simp [hexp, hv]

/-- An uninterfered redeem of a bound record past its deadline answers
the expired error and deletes the record. -/
theorem getShare_of_expired (now : Int) (token : String) (s : ShareStore)
    (d : ShareData) (hg : ShareStore.Get token s = some d)
    (hexp : now > d.expiresAt) :
    getShare now token s = (RedeemResult.expired, ShareStore.Delete token s) := by
  unfold getShare getSharePhase1 getSharePhase2
  rw [hg]
  simp [hexp]

/-- A redeem of an unbound token answers the not-found error and leaves
the store unchanged. -/
theorem getShare_of_absent (now : Int) (token : String) (s : ShareStore)
    (hg : ShareStore.Get token s = none) :
    getShare now token s = (RedeemResult.notFound, s) := by
  unfold getShare getSharePhase1 getSharePhase2
  rw [hg]

/-- The consume path leaves no binding for the token. -/
theorem Get_MarkViewed_Delete (now : Int) (token : String) (s : ShareStore) :
    ShareStore.Get token
      (ShareStore.Delete token (ShareStore.MarkViewed now token s)) = none :=
  ShareStore.Get_Delete_self token _

/-- Claim C1: the claim asserts that the four-step existence/expiry/viewed/
consume sequence of the redeem operation executes as one indivisible
critical section, so that of concurrent redeem calls racing on one handle
exactly one receives the payload. The code violates this: `store.Get`
holds only a read lock, the expiry and viewed tests run outside any lock,
and `store.MarkViewed` and `store.Delete` each take the write lock
separately, so both racing calls can pass their checks before either
consumes. This theorem exhibits the interleaving on a concrete store: both
calls return the success response carrying the secret payload. -/
theorem racy_redeem_delivers_payload_twice :
    racyGetShare 5 "h" [("h", sampleActive)] =
      ((RedeemResult.success
          { encryptedPassword := "s3cret", serviceName := "Gmail", username := "a@b.com",
            createdAt := 0, viewedAt := some 5 },
        RedeemResult.success
          { encryptedPassword := "s3cret", serviceName := "Gmail", username := "a@b.com",
            createdAt := 0, viewedAt := some 5 }), []) := by decide

/-- Claim C2, counterexample: the claim asserts that a generator collision
is detected and rejected rather than silently overwriting. On a store
already binding handle "h" to a record of alice, a create call whose
generated token is again "h" succeeds and rebinds "h" to the new record,
silently replacing the payload of the live record. -/
theorem create_collision_silently_overwrites :
    createShare
        { encryptedPassword := "newsecret", serviceName := "Site",
          username := "bob", expirationHours := 24 } "h" 50
        [("h", { encryptedPassword := "oldsecret", serviceName := "Gmail",
                 username := "alice", createdAt := 0, expiresAt := 1000,
                 viewed := false, viewedAt := none })] =
      some ({ encryptedPassword := "newsecret", serviceName := "Site", username := "bob",
              createdAt := 50, expiresAt := 50 + 24 * hourNs, viewed := false, viewedAt := none },
            [("h", { encryptedPassword := "newsecret", serviceName := "Site", username := "bob",
                     createdAt := 50, expiresAt := 50 + 24 * hourNs, viewed := false,
                     viewedAt := none })]) := by decide

/-- Claim C2, amended: handles present in the store are pairwise distinct
(the store is a map keyed by handle and every create keeps the keys
distinct), but the create operation performs no collision detection:
when the generated handle equals one already in the store, the new record
silently overwrites the existing one. -/
theorem create_distinct_keys_overwrite_semantics (req : ShareRequest)
    (token : String) (now : Int) (s : ShareStore) (d : ShareData) (s1 : ShareStore)
    (hn : (s.map Prod.fst).Nodup)
    (hc : createShare req token now s = some (d, s1)) :
    (s1.map Prod.fst).Nodup ∧ ShareStore.Get token s1 = some d := by
  obtain ⟨hd, hs⟩ := createShare_some_inv req token now s d s1 hc
  subst hs
  exact ⟨ShareStore.Add_keys_nodup token d s hn, ShareStore.Get_Add_self token d s⟩

/-- Witness for the amended claim C2, at the collision input above. -/
theorem create_distinct_keys_overwrite_semantics_witness :
    (([("h",
        { encryptedPassword := "newsecret", serviceName := "Site", username := "bob",
          createdAt := 50, expiresAt := 50 + 24 * hourNs, viewed := false,
          viewedAt := none })] : ShareStore).map Prod.fst).Nodup ∧
    ShareStore.Get "h"
        [("h",
          { encryptedPassword := "newsecret", serviceName := "Site", username := "bob",
            createdAt := 50, expiresAt := 50 + 24 * hourNs, viewed := false,
            viewedAt := none })] =
      some { encryptedPassword := "newsecret", serviceName := "Site", username := "bob",
             createdAt := 50, expiresAt := 50 + 24 * hourNs, viewed := false,
             viewedAt := none } := by
  have h := create_distinct_keys_overwrite_semantics
    { encryptedPassword := "newsecret", serviceName := "Site",
      username := "bob", expirationHours := 24 } "h" 50
    [("h", { encryptedPassword := "oldsecret", serviceName := "Gmail",
             username := "alice", createdAt := 0, expiresAt := 1000,
             viewed := false, viewedAt := none })]
    { encryptedPassword := "newsecret", serviceName := "Site", username := "bob",
      createdAt := 50, expiresAt := 50 + 24 * hourNs, viewed := false, viewedAt := none }
    [("h", { encryptedPassword := "newsecret", serviceName := "Site", username := "bob",
             createdAt := 50, expiresAt := 50 + 24 * hourNs, viewed := false,
             viewedAt := none })]
    (by decide) (by decide)
  exact h

/-- Claim C3, counterexample: the claim asserts that redeeming a handle a
second time returns the already-viewed error. On a concrete active,
unexpired record, the first redeem succeeds with the payload, but the
second redeem returns the not-found error, because the handler deletes the
record at the end of the first redeem. -/
theorem second_redeem_returns_notFound :
    (getShare 5 "h" [("h", sampleActive)]).1 =
      RedeemResult.success
        { encryptedPassword := "s3cret", serviceName := "Gmail", username := "a@b.com",
          createdAt := 0, viewedAt := some 5 } ∧
    (getShare 5 "h" (getShare 5 "h" [("h", sampleActive)]).2).1 =
      RedeemResult.notFound := by decide

/-- Claim C3, amended: a redeem following a completed successful redeem of
the same handle returns the not-found error (the record is removed by the
first redeem); only while a record is still present, unexpired and marked
viewed does redeem return the already-viewed error, and that error carries
only non-secret metadata (service name, username, created time, viewed
time) with an empty encrypted-password field, never the payload. -/
theorem redeem_after_consume_notFound_viewed_branch_metadata (now : Int)
    (token : String) (s : ShareStore) (d : ShareData)
    (hg : ShareStore.Get token s = some d) (hexp : ¬ now > d.expiresAt) :
    (d.viewed = false →
      (getShare now token (getShare now token s).2).1 = RedeemResult.notFound) ∧
    (d.viewed = true →
      getShare now token s =
        (RedeemResult.alreadyViewed
          { encryptedPassword := "", serviceName := d.serviceName,
            username := d.username, createdAt := d.createdAt,
            viewedAt := d.viewedAt }, s)) := by
  constructor
  · intro hv
    have h1 := getShare_of_active now token s d hg hexp hv
    have h2 := getShare_of_absent now token
      (ShareStore.Delete token (ShareStore.MarkViewed now token s))
      (Get_MarkViewed_Delete now token s)
    rw [h1]
    rw [h2]
  · intro hv
    exact getShare_of_viewed now token s d hg hexp hv

/-- Witness for the amended claim C3, at a concrete viewed record. -/
theorem redeem_viewed_branch_witness :
    getShare 5 "h" [("h", sampleViewed)] =
      (RedeemResult.alreadyViewed
        { encryptedPassword := "", serviceName := "Gmail", username := "a@b.com",
          createdAt := 0, viewedAt := some 3 }, [("h", sampleViewed)]) := by
  have h := redeem_after_consume_notFound_viewed_branch_metadata 5 "h"
    [("h", sampleViewed)] sampleViewed rfl (by decide)
  exact h.2 rfl

/-- Claim C4: redeeming a handle bound to an unexpired, not yet viewed
record returns the success response carrying the payload, and the same
operation removes the record: afterwards the store has no binding for the
handle. -/
theorem redeem_success_consumes_record (now : Int) (token : String)
    (s : ShareStore) (d : ShareData)
    (hg : ShareStore.Get token s = some d)
    (hexp : ¬ now > d.expiresAt) (hv : d.viewed = false) :
    getShare now token s =
      (RedeemResult.success
        { encryptedPassword := d.encryptedPassword, serviceName := d.serviceName,
          username := d.username, createdAt := d.createdAt, viewedAt := some now },
       ShareStore.Delete token (ShareStore.MarkViewed now token s)) ∧
    ShareStore.Get token (getShare now token s).2 = none := by
  have h := getShare_of_active now token s d hg hexp hv
  refine ⟨h, ?_⟩
  rw [h]
  exact Get_MarkViewed_Delete now token s

/-- Witness for claim C4, at a concrete active record. -/
theorem redeem_success_consumes_record_witness :
    getShare 5 "h" [("h", sampleActive)] =
      (RedeemResult.success
        { encryptedPassword := "s3cret", serviceName := "Gmail", username := "a@b.com",
          createdAt := 0, viewedAt := some 5 },
       ShareStore.Delete "h" (ShareStore.MarkViewed 5 "h" [("h", sampleActive)])) ∧
    ShareStore.Get "h" (getShare 5 "h" [("h", sampleActive)]).2 = none :=
  redeem_success_consumes_record 5 "h" [("h", sampleActive)] sampleActive
    rfl (by decide) rfl

/-- Claim C5: redeeming a handle whose record is present but past its
deadline returns the expired error, which carries no payload, and removes
the record from the store, with no requirement that the record was ever
redeemed before. -/
theorem redeem_expired_removes_record (now : Int) (token : String)
    (s : ShareStore) (d : ShareData)
    (hg : ShareStore.Get token s = some d) (hexp : now > d.expiresAt) :
    getShare now token s = (RedeemResult.expired, ShareStore.Delete token s) ∧
    ShareStore.Get token (getShare now token s).2 = none := by
  have h := getShare_of_expired now token s d hg hexp
  refine ⟨h, ?_⟩
  rw [h]
  exact ShareStore.Get_Delete_self token s

/-- Witness for claim C5, at a concrete never-viewed record past its
deadline. -/
theorem redeem_expired_removes_record_witness :
    getShare 2000 "h" [("h", sampleActive)] =
      (RedeemResult.expired, ShareStore.Delete "h" [("h", sampleActive)]) ∧
    ShareStore.Get "h" (getShare 2000 "h" [("h", sampleActive)]).2 = none :=
  redeem_expired_removes_record 2000 "h" [("h", sampleActive)] sampleActive
    rfl (by decide)

/-- Claim C6: the cleanup sweep removes exactly the records whose deadline
is strictly before the given time, keeps every other record untouched, and
returns the number of records removed. -/
theorem cleanup_filter_spec (now : Int) :
    ∀ s : ShareStore,
      (ShareStore.CleanupExpired now s).2 =
        s.filter (fun p => decide (now ≤ p.2.expiresAt)) ∧
      (ShareStore.CleanupExpired now s).1 =
        (s.filter (fun p => decide (p.2.expiresAt < now))).length := by
  intro s
  induction s with
  | nil => simp [ShareStore.CleanupExpired]
  | cons p rest ih =>
    obtain ⟨k, d⟩ := p
    by_cases h : now > d.expiresAt
    · have h1 : ¬ now ≤ d.expiresAt := not_le.mpr h
      simp [ShareStore.CleanupExpired, h, h1, ih.1, ih.2, List.filter_cons]
    · have h1 : ¬ d.expiresAt < now := h
      simp [ShareStore.CleanupExpired, h, h1, not_lt.mp h, ih.1, ih.2, List.filter_cons]

/-- Claim C7: a create request whose expiration-hours field is zero (the
value for an absent field), or negative, is given the default time to
live of 24 hours, and the stored record has created time equal to the
request time and deadline equal to created time plus 24 hours. -/
theorem create_default_ttl_24h (req : ShareRequest) (token : String) (now : Int)
    (s : ShareStore) (d : ShareData) (s1 : ShareStore)
    (httl : req.expirationHours ≤ 0)
    (hc : createShare req token now s = some (d, s1)) :
    d.createdAt = now ∧ d.expiresAt = now + 24 * hourNs := by
  obtain ⟨hd, -⟩ := createShare_some_inv req token now s d s1 hc
  subst hd
  refine ⟨rfl, ?_⟩
  show now + goHoursToDuration (if req.expirationHours ≤ 0 then 24 else req.expirationHours)
      = now + 24 * hourNs
  rw [if_pos httl]
  rw [show goHoursToDuration 24 = 24 * hourNs by decide]

/-- Witness for claim C7, at a concrete request with expiration hours 0. -/
theorem create_default_ttl_24h_witness :
    ShareData.createdAt
        { encryptedPassword := "pw", serviceName := "svc", username := "user",
          createdAt := 7, expiresAt := 7 + 24 * hourNs, viewed := false,
          viewedAt := none } = 7 ∧
    ShareData.expiresAt
        { encryptedPassword := "pw", serviceName := "svc", username := "user",
          createdAt := 7, expiresAt := 7 + 24 * hourNs, viewed := false,
          viewedAt := none } = 7 + 24 * hourNs :=
  create_default_ttl_24h
    { encryptedPassword := "pw", serviceName := "svc", username := "user",
      expirationHours := 0 } "t" 7 []
    { encryptedPassword := "pw", serviceName := "svc", username := "user",
      createdAt := 7, expiresAt := 7 + 24 * hourNs, viewed := false, viewedAt := none }
    [("t", { encryptedPassword := "pw", serviceName := "svc", username := "user",
             createdAt := 7, expiresAt := 7 + 24 * hourNs, viewed := false,
             viewedAt := none })]
    (by decide) (by decide)

/-- Claim C8: delete reports whether the handle existed, removes any
binding for it regardless of the state of the record, is idempotent (a
second delete reports not-found and leaves the store unchanged), and a
redeem after a delete of the handle returns the not-found error. -/
theorem delete_unconditional_idempotent (s : ShareStore) (token : String) (now : Int) :
    (deleteShare token s).1 = (ShareStore.Get token s).isSome ∧
    ShareStore.Get token (deleteShare token s).2 = none ∧
    deleteShare token (deleteShare token s).2 = (false, (deleteShare token s).2) ∧
    getShare now token (deleteShare token s).2 =
      (RedeemResult.notFound, (deleteShare token s).2) := by
  cases hg : ShareStore.Get token s with
  | none =>
    simp [deleteShare, hg, getShare_of_absent now token s hg]
  | some d =>
    have h1 : ShareStore.Get token (ShareStore.Delete token s) = none :=
      ShareStore.Get_Delete_self token s
    simp [deleteShare, hg, h1,
      getShare_of_absent now token (ShareStore.Delete token s) h1]

/-- Claim C9: the store treats the payload as an opaque blob: the first
successful redeem of a handle returned by create surfaces exactly the
encrypted password, service name, username and creation time supplied to
create, untransformed. -/
theorem create_redeem_roundtrip (req : ShareRequest) (token : String) (now : Int)
    (s : ShareStore) (d : ShareData) (s1 : ShareStore) (now2 : Int)
    (hc : createShare req token now s = some (d, s1))
    (hexp : ¬ now2 > d.expiresAt) :
    getShare now2 token s1 =
      (RedeemResult.success
        { encryptedPassword := req.encryptedPassword, serviceName := req.serviceName,
          username := req.username, createdAt := now, viewedAt := some now2 },
       ShareStore.Delete token (ShareStore.MarkViewed now2 token s1)) := by
  obtain ⟨hd, hs⟩ := createShare_some_inv req token now s d s1 hc
  subst hs
  have hg : ShareStore.Get token (ShareStore.Add token d s) = some d :=
    ShareStore.Get_Add_self token d s
  have hv : d.viewed = false := by rw [hd]
  have h := getShare_of_active now2 token (ShareStore.Add token d s) d hg hexp hv
  rw [h, hd]

/-- Witness for claim C9, at a concrete create with a one hour time to
live followed by a redeem at time 100. -/
theorem create_redeem_roundtrip_witness :
    getShare 100 "t"
        [("t", { encryptedPassword := "pw", serviceName := "svc", username := "user",
                 createdAt := 0, expiresAt := 3600000000000, viewed := false,
                 viewedAt := none })] =
      (RedeemResult.success
        { encryptedPassword := "pw", serviceName := "svc", username := "user",
          createdAt := 0, viewedAt := some 100 },
       ShareStore.Delete "t" (ShareStore.MarkViewed 100 "t"
        [("t", { encryptedPassword := "pw", serviceName := "svc", username := "user",
                 createdAt := 0, expiresAt := 3600000000000, viewed := false,
                 viewedAt := none })])) :=
  create_redeem_roundtrip
    { encryptedPassword := "pw", serviceName := "svc", username := "user",
      expirationHours := 1 } "t" 0 []
    { encryptedPassword := "pw", serviceName := "svc", username := "user",
      createdAt := 0, expiresAt := 3600000000000, viewed := false, viewedAt := none }
    [("t", { encryptedPassword := "pw", serviceName := "svc", username := "user",
             createdAt := 0, expiresAt := 3600000000000, viewed := false,
             viewedAt := none })]
    100 (by decide) (by decide)

/-- Claim C10, counterexample: the claim asserts that any positive
expiration-hours value h yields a deadline of created time plus h hours
for arbitrarily large h. At h = 2562048 the product h times one hour in
nanoseconds exceeds the int64 range, the duration wraps, and the stored
deadline is a large negative number, not created time plus h hours. -/
theorem create_huge_ttl_overflows :
    (createShare
        { encryptedPassword := "pw", serviceName := "svc", username := "user",
          expirationHours := 2562048 } "t" 0 []).map (fun x => x.1.expiresAt) =
      some (-9223371273709551616) ∧
    (-9223371273709551616 : Int) ≠ 0 + 2562048 * hourNs := by decide

/-- Claim C10, amended: create clamps only non-positive expiration-hours
values to the 24 hour default; any positive value h is used verbatim with
no upper bound or validation, and the stored deadline equals created time
plus h hours whenever the product h times one hour fits in the 64-bit
nanosecond duration, that is for every h up to 2562047; beyond that the
product wraps. -/
theorem create_positive_ttl_verbatim (req : ShareRequest) (token : String)
    (now : Int) (s : ShareStore) (d : ShareData) (s1 : ShareStore)
    (h1 : 0 < req.expirationHours) (h2 : req.expirationHours ≤ 2562047)
    (hc : createShare req token now s = some (d, s1)) :
    d.expiresAt = now + req.expirationHours * hourNs := by
  obtain ⟨hd, -⟩ := createShare_some_inv req token now s d s1 hc
  subst hd
  have hpos : ¬ req.expirationHours ≤ 0 := not_le.mpr h1
  show now + goHoursToDuration (if req.expirationHours ≤ 0 then 24 else req.expirationHours)
      = now + req.expirationHours * hourNs
  rw [if_neg hpos]
  have hb1 : -(2 ^ 63) ≤ req.expirationHours * hourNs := by
    have hnn : (0 : Int) ≤ req.expirationHours * hourNs :=
      mul_nonneg (le_of_lt h1) (by norm_num [hourNs])
    linarith
  have hb2 : req.expirationHours * hourNs < 2 ^ 63 := by
    have hm : req.expirationHours * hourNs ≤ 2562047 * hourNs :=
      mul_le_mul_of_nonneg_right h2 (by norm_num [hourNs])
    have hlt : (2562047 : Int) * hourNs < 2 ^ 63 := by norm_num [hourNs]
    linarith
  unfold goHoursToDuration
  rw [wrap64_eq_self _ hb1 hb2]

/-- Witness for the amended claim C10, at a concrete request with
expiration hours 100. -/
theorem create_positive_ttl_verbatim_witness :
    ShareData.expiresAt
        { encryptedPassword := "pw", serviceName := "svc", username := "user",
          createdAt := 0, expiresAt := 360000000000000, viewed := false,
          viewedAt := none } = 0 + 100 * hourNs :=
  create_positive_ttl_verbatim
    { encryptedPassword := "pw", serviceName := "svc", username := "user",
      expirationHours := 100 } "t" 0 []
    { encryptedPassword := "pw", serviceName := "svc", username := "user",
      createdAt := 0, expiresAt := 360000000000000, viewed := false, viewedAt := none }
    [("t", { encryptedPassword := "pw", serviceName := "svc", username := "user",
             createdAt := 0, expiresAt := 360000000000000, viewed := false,
             viewedAt := none })]
    (by decide) (by decide) (by decide)

end PasswordShare
